import Mathlib

/-!
Shallow embedding of `src/index.ts` of siveroo/obviewer: the `ReplayTale`
playback orchestrator (mods-override state machine, playback clock with
per-frame tick, drift corrector).

Modelling conventions:
- JavaScript `number` time/rate values are modelled as `Rat` (spec: signed
  real milliseconds, positive real playback rate).
- The field `_replayModsNumeric` is declared `number | null` in the source
  but has NO initializer, so at runtime its initial value is `undefined`
  (class fields without an initializer are `undefined` in JavaScript, and is
  only ever assigned numbers afterwards); it is modelled by `JSNum` with the
  three runtime possibilities, and the source's strict-equality test
  `=== null` is modelled by equality with `JSNum.null`.
- A `Mods` numeric identity is `Option Int`; `none` models a JavaScript
  `undefined` numeric (which arises when `new Mods(undefined)` is evaluated);
  strict equality `===` between `numeric` values (each a number or
  `undefined`) coincides with `Option` equality.
- Calls on the external collaborators (renderer geometry reload, game
  instance loads, audio control, `console.warn`, `Settings.set`) are recorded
  as an `Event` trace in source order; the renderer's settable `timestamp`
  and the game instance's settable `time` are state fields (`Option Rat`,
  `none` meaning the orchestrator has never pushed a value to them).
- The `Settings` values read in `loop` are state fields (they never change
  except through `Settings.set` performed by the orchestrator itself); the
  audio handler's `getAudioCurrentTimeMS` / `getAudioOffsetMS` readings are
  oracle inputs passed to each `loop` call.
-/

namespace Obviewer

/-- A runtime JavaScript value of TypeScript type `number | null`, which may
also be `undefined` when the field was never assigned. -/
inductive JSNum where
  | undef : JSNum
  | null : JSNum
  | num (n : Int) : JSNum
deriving DecidableEq, Repr

/-- Modelled from the spec: the `Mods` class (`src/osu/Mods/Mods.ts`) is not
under `src/`; per the spec a ModifierSet is "an opaque value type with a
canonical numeric identity used for equality comparisons", immutable once
constructed. Only its numeric identity is relevant here; `none` models an
`undefined` numeric. -/
structure Mods where
  numeric : Option Int
deriving DecidableEq, Repr

/-- Modelled from the spec: `disableModsOverride` does
`new Mods(this._replayModsNumeric)`; the spec says it "reconstruct[s] a
ModifierSet from the replay's captured original numeric identity", so the
constructor stores the given identity; an absent (`undefined`) argument
yields an absent numeric identity. -/
def Mods.new (x : JSNum) : Mods :=
  match x with
  | JSNum.num n => ⟨some n⟩
  | _ => ⟨none⟩

/-- Converts an actual numeric identity to the runtime value stored in
`_replayModsNumeric` by `this._replayModsNumeric = replay.mods.numeric`. -/
def optToJS (x : Option Int) : JSNum :=
  match x with
  | some n => JSNum.num n
  | none => JSNum.undef

/-- External collaborator `Beatmap`: carries a mutable ModifierSet
(`getMods()` / `setMods(mods)`). -/
structure Beatmap where
  mods : Mods
deriving DecidableEq, Repr

def Beatmap.getMods (b : Beatmap) : Mods := b.mods

def Beatmap.setMods (_b : Beatmap) (m : Mods) : Beatmap := ⟨m⟩

/-- External collaborator `Replay`: carries a mutable `mods` field. -/
structure Replay where
  mods : Mods
deriving DecidableEq, Repr

/-- Observable calls the orchestrator makes on its collaborators, in source
order. `rendererLoadBeatmap` is the beatmap-geometry reload signal. -/
inductive Event where
  | gameLoadBeatmap : Event
  | rendererLoadBeatmap : Event
  | gameLoadReplay : Event
  | rendererLoadReplay : Event
  | audioSeek (seconds : Rat) : Event
  | audioPlay : Event
  | audioPause : Event
  | warnAutoSyncIssue : Event
  | settingsSetAutoSyncEnabled (value : Bool) : Event
  | scheduleNextFrame : Event
deriving DecidableEq, Repr

/-- The renderer's settable `timestamp` property; `none` means never pushed. -/
structure RendererSt where
  timestamp : Option Rat
deriving DecidableEq, Repr

/-- The game instance's settable `time` property; `none` means never pushed. -/
structure GameInstanceSt where
  time : Option Rat
deriving DecidableEq, Repr

/-- The `Settings` values the orchestrator reads or writes in `loop`. -/
structure SettingsSt where
  audioAutoSyncEnabled : Bool
  audioAutoSyncThresholdMS : Rat
  audioAutoSyncDetectIssue : Bool
deriving DecidableEq, Repr

/-- The state of the `ReplayTale` class, field for field. -/
structure ReplayTale where
  beatmap : Option Beatmap
  replay : Option Replay
  isModsOverriden : Bool
  _replayModsNumeric : JSNum
  mods : Option Mods
  isPaused : Bool
  timestamp : Rat
  _playbackRate : Rat
  _autoSyncCount : Int
  _autoSyncLastTime : Rat
  lastFrameTimestamp : Rat
  renderer : RendererSt
  gameInstance : GameInstanceSt
  settings : SettingsSt
deriving DecidableEq, Repr

/-- The `playbackRate` getter. -/
def ReplayTale.playbackRate (s : ReplayTale) : Rat := s._playbackRate

/-- The constructor: field initializers of the class
(`_replayModsNumeric` has no initializer, hence `undefined`); the external
`Settings` content is a parameter. -/
def ReplayTale.new (settings : SettingsSt) : ReplayTale where
  beatmap := none
  replay := none
  isModsOverriden := false
  _replayModsNumeric := JSNum.undef
  mods := none
  isPaused := true
  timestamp := 0
  _playbackRate := 1
  _autoSyncCount := 0
  _autoSyncLastTime := 0
  lastFrameTimestamp := 0
  renderer := ⟨none⟩
  gameInstance := ⟨none⟩
  settings := settings

/-- `loadBeatmap(beatmap)`, lines 64-77. -/
def ReplayTale.loadBeatmap (s : ReplayTale) (beatmap : Beatmap) :
    ReplayTale × List Event :=
  let beatmap :=
    match s.mods with
    | some m => beatmap.setMods m
    | none => beatmap
  let beatmap :=
    match s.mods, s.replay with
    | none, some replay =>
        if replay.mods.numeric ≠ beatmap.getMods.numeric then
          beatmap.setMods replay.mods
        else beatmap
    | _, _ => beatmap
  ({ s with beatmap := some beatmap },
   [Event.gameLoadBeatmap, Event.rendererLoadBeatmap])

/-- `loadReplay(replay)`, lines 79-93: the incoming numeric identity is
captured into `_replayModsNumeric` before any mutation. -/
def ReplayTale.loadReplay (s : ReplayTale) (replay : Replay) :
    ReplayTale × List Event :=
  let s := { s with _replayModsNumeric := optToJS replay.mods.numeric }
  let replay :=
    match s.mods with
    | some m => { replay with mods := m }
    | none => replay
  let s :=
    match s.beatmap with
    | some b =>
        if b.getMods.numeric ≠ replay.mods.numeric then
          { s with beatmap := some (b.setMods replay.mods) }
        else s
    | none => s
  ({ s with replay := some replay },
   [Event.gameLoadReplay, Event.rendererLoadReplay])

/-- `enableModsOverride(mods)`, lines 95-114: `isModsOverriden` is set before
the early-return test `mods.numeric === this.mods?.numeric` (the optional
chain yields `undefined` when no override is stored, modelled by
`Option.bind`). -/
def ReplayTale.enableModsOverride (s : ReplayTale) (mods : Mods) :
    ReplayTale × List Event :=
  let s := { s with isModsOverriden := true }
  if mods.numeric = s.mods.bind Mods.numeric then (s, [])
  else
    let s := { s with mods := some mods }
    let s :=
      match s.replay with
      | some r => { s with replay := some { r with mods := mods } }
      | none => s
    match s.beatmap with
    | some b =>
        let oldMods := b.getMods.numeric
        let s := { s with beatmap := some (b.setMods mods) }
        if oldMods ≠ mods.numeric then (s, [Event.rendererLoadBeatmap])
        else (s, [])
    | none => (s, [])

/-- `disableModsOverride()`, lines 116-136: the guard is a strict-equality
test against `null`. -/
def ReplayTale.disableModsOverride (s : ReplayTale) : ReplayTale × List Event :=
  let s := { s with mods := none }
  if s._replayModsNumeric = JSNum.null then (s, [])
  else
    let oldReplayMods := Mods.new s._replayModsNumeric
    let s :=
      match s.replay with
      | some r => { s with replay := some { r with mods := oldReplayMods } }
      | none => s
    match s.beatmap with
    | some b =>
        let oldMapMods := b.getMods.numeric
        let s := { s with beatmap := some (b.setMods oldReplayMods) }
        if oldMapMods ≠ oldReplayMods.numeric then
          (s, [Event.rendererLoadBeatmap])
        else (s, [])
    | none => (s, [])

/-- `loop(time)`, lines 141-177: one animation-frame tick. `currTime` and
`offset` are the audio handler's `getAudioCurrentTimeMS` /
`getAudioOffsetMS` readings for the `beatmap` track at this tick. -/
def ReplayTale.loop (s : ReplayTale) (time currTime offset : Rat) :
    ReplayTale × List Event :=
  if s.isPaused then (s, [])
  else
    let deltaTime := time - s.lastFrameTimestamp
    let s := { s with timestamp := s.timestamp + deltaTime * s.playbackRate }
    let s := { s with renderer := ⟨some s.timestamp⟩ }
    let s := { s with gameInstance := ⟨some s.timestamp⟩ }
    let s := { s with lastFrameTimestamp := time }
    let driftStep : ReplayTale × List Event :=
      if s.settings.audioAutoSyncEnabled then
        let timeDiff := currTime - offset - s.timestamp
        if |timeDiff| > s.settings.audioAutoSyncThresholdMS then
          let ev := [Event.audioSeek (s.timestamp / 1000)]
          if s.settings.audioAutoSyncDetectIssue then
            let s := { s with _autoSyncCount := s._autoSyncCount + 1 }
            let s :=
              if s.timestamp - s._autoSyncLastTime > 1000 then
                { s with _autoSyncCount := 0 }
              else s
            ({ s with _autoSyncLastTime := time }, ev)
          else (s, ev)
        else (s, [])
      else (s, [])
    let s := driftStep.1
    let issueStep : ReplayTale × List Event :=
      if s._autoSyncCount > 10 then
        ({ s with
            settings := { s.settings with audioAutoSyncEnabled := false },
            _autoSyncCount := 0 },
         [Event.warnAutoSyncIssue, Event.settingsSetAutoSyncEnabled false])
      else (s, [])
    (issueStep.1, driftStep.2 ++ issueStep.2 ++ [Event.scheduleNextFrame])

/-- `play()`, lines 179-186: `now` is `performance.now()`; the trailing
`this.loop(this.lastFrameTimestamp)` call receives the same oracle readings. -/
def ReplayTale.play (s : ReplayTale) (now currTime offset : Rat) :
    ReplayTale × List Event :=
  let s := { s with isPaused := false, lastFrameTimestamp := now }
  let p := s.loop now currTime offset
  (p.1, Event.audioPlay :: Event.audioSeek (s.timestamp / 1000) :: p.2)

/-- `pause()`, lines 188-191. -/
def ReplayTale.pause (s : ReplayTale) : ReplayTale × List Event :=
  ({ s with isPaused := true }, [Event.audioPause])

/-- `seek(timestamp)`, lines 193-197. -/
def ReplayTale.seek (s : ReplayTale) (timestamp : Rat) :
    ReplayTale × List Event :=
  ({ s with timestamp := timestamp, renderer := ⟨some timestamp⟩ },
   [Event.audioSeek (timestamp / 1000)])

/-- A sequence of `enableModsOverride` calls. -/
def ReplayTale.applyOverrides (s : ReplayTale) (ovs : List Mods) : ReplayTale :=
  ovs.foldl (fun s m => (s.enableModsOverride m).1) s

/-- A sequence of ticks, each a `(time, currTime, offset)` triple;
accumulates the emitted events. -/
def ReplayTale.runLoop (s : ReplayTale) (ticks : List (Rat × Rat × Rat)) :
    ReplayTale × List Event :=
  ticks.foldl
    (fun p t =>
      let q := p.1.loop t.1 t.2.1 t.2.2
      (q.1, p.2 ++ q.2))
    (s, [])

/-! Helper lemmas shared by several claims. -/

/-- Reconstructing a `Mods` from the stored capture of an identity recovers
that identity. -/
theorem Mods.new_optToJS (x : Option Int) : Mods.new (optToJS x) = ⟨x⟩ := by
  cases x <;> rfl

/-- The stored capture of an identity is never the JavaScript `null`. -/
theorem optToJS_ne_null (x : Option Int) : optToJS x ≠ JSNum.null := by
  cases x <;> simp [optToJS]

/-- `enableModsOverride` preserves the captured original replay identity and
whether a replay is loaded. -/
theorem enableModsOverride_pres (s : ReplayTale) (m : Mods) :
    ((s.enableModsOverride m).1)._replayModsNumeric = s._replayModsNumeric ∧
      ((s.enableModsOverride m).1).replay.isSome = s.replay.isSome := by
  obtain ⟨bm, rp, ov, rmn, mods, ip, ts, pr, cnt, lt, lft, r, g, st⟩ := s
  simp only [ReplayTale.enableModsOverride]
  split
  · exact ⟨rfl, rfl⟩
  · cases rp <;> cases bm <;> simp <;> split <;> simp

/-- A fold of `enableModsOverride` calls preserves the captured original
replay identity and whether a replay is loaded. -/
theorem applyOverrides_pres (ovs : List Mods) (s : ReplayTale) :
    (s.applyOverrides ovs)._replayModsNumeric = s._replayModsNumeric ∧
      (s.applyOverrides ovs).replay.isSome = s.replay.isSome := by
  induction ovs generalizing s with
  | nil => exact ⟨rfl, rfl⟩
  | cons m ovs ih =>
      have h := enableModsOverride_pres s m
      have h2 := ih (s.enableModsOverride m).1
      exact ⟨h2.1.trans h.1, h2.2.trans h.2⟩

/-- When the capture field holds the capture of identity `x` and a replay is
loaded, `disableModsOverride` writes a `Mods` of identity `x` into the replay
and into the beatmap if one is loaded. -/
theorem disableModsOverride_restores (s : ReplayTale) (x : Option Int)
    (h1 : s._replayModsNumeric = optToJS x) (h2 : s.replay.isSome = true) :
    ((s.disableModsOverride).1.replay.map fun r => r.mods.numeric) = some x ∧
      ∀ b, (s.disableModsOverride).1.beatmap = some b →
        b.getMods.numeric = x := by
  obtain ⟨bm, rp, ov, rmn, mods, ip, ts, pr, cnt, lt, lft, r, g, st⟩ := s
  simp only at h1 h2
  subst h1
  cases rp with
  | none => simp at h2
  | some rpv =>
      simp only [ReplayTale.disableModsOverride, Mods.new_optToJS]
      rw [if_neg (optToJS_ne_null x)]
      cases bm with
      | none => simp
      | some bv =>
          constructor
          · split <;> first | (split <;> simp) | simp_all
          · intro b hb
            split at hb <;>
              first
                | (split at hb <;> simp at hb <;>
                    simp [← hb, Beatmap.setMods, Beatmap.getMods])
                | simp_all

/-- Every call to `enableModsOverride` sets `isModsOverriden` to `true`,
also on the early-return path. -/
theorem enableModsOverride_flag (s : ReplayTale) (m : Mods) :
    (s.enableModsOverride m).1.isModsOverriden = true := by
  obtain ⟨bm, rp, ov, rmn, mods, ip, ts, pr, cnt, lt, lft, r, g, st⟩ := s
  simp only [ReplayTale.enableModsOverride]
  split
  · rfl
  · cases rp <;> cases bm <;> simp <;> split <;> simp

/-- After `enableModsOverride m`, the stored override has `m`'s numeric
identity (on the early-return path it already had it). -/
theorem enableModsOverride_mods (s : ReplayTale) (m : Mods) :
    m.numeric = ((s.enableModsOverride m).1).mods.bind Mods.numeric := by
  obtain ⟨bm, rp, ov, rmn, mods, ip, ts, pr, cnt, lt, lft, r, g, st⟩ := s
  simp only [ReplayTale.enableModsOverride]
  split
  · assumption
  · cases rp <;> cases bm <;> simp <;> split <;> simp

/-- `enableModsOverride` is a pure no-op emitting no event when the flag is
already set and the stored override already has the argument's identity. -/
theorem enableModsOverride_noop (s : ReplayTale) (m : Mods)
    (h1 : s.isModsOverriden = true)
    (h2 : m.numeric = s.mods.bind Mods.numeric) :
    s.enableModsOverride m = (s, []) := by
  obtain ⟨bm, rp, ov, rmn, mods, ip, ts, pr, cnt, lt, lft, r, g, st⟩ := s
  simp only at h1 h2
  subst h1
  simp [ReplayTale.enableModsOverride, h2]

/-- The state reached by loading a beatmap of mods identity 8 into a fresh
orchestrator, with `loadReplay` never called. -/
def c2state : ReplayTale :=
  ((ReplayTale.new ⟨true, 50, true⟩).loadBeatmap ⟨⟨some 8⟩⟩).1

/-- C2: the source guard `this._replayModsNumeric === null` never fires when
no replay was ever loaded, because the uninitialized field is `undefined`,
not `null`: on a fresh orchestrator with a beatmap of mods identity 8 loaded,
`disableModsOverride` overwrites the beatmap's mods with
`new Mods(undefined)` (identity absent) and issues a geometry-reload signal,
instead of returning without further action. -/
theorem C2_disable_without_replay_acts :
    c2state._replayModsNumeric = JSNum.undef ∧
    (c2state.beatmap.map fun b => b.mods.numeric) = some (some 8) ∧
    ((c2state.disableModsOverride).1.beatmap.map fun b => b.mods.numeric)
      = some none ∧
    (c2state.disableModsOverride).2 = [Event.rendererLoadBeatmap] := by
  decide

/-- The state reached by enabling a mods override of identity 8 on a fresh
orchestrator. -/
def c3state : ReplayTale :=
  ((ReplayTale.new ⟨true, 50, true⟩).enableModsOverride ⟨some 8⟩).1

/-- C3: `disableModsOverride` never writes `isModsOverriden`, so the flag
stays `true` after an enable/disable pair on a fresh orchestrator, where the
claim requires `false` (the enable half of the claim does hold). -/
theorem C3_flag_not_cleared :
    ((c3state.disableModsOverride).1.isModsOverriden = true) ∧
    (∀ s : ReplayTale, ∀ m : Mods,
      (s.enableModsOverride m).1.isModsOverriden = true) :=
  ⟨by decide, fun s m => enableModsOverride_flag s m⟩

/-- C8: calling `enableModsOverride` twice with the same mods leaves the
second call with no state change and no emitted event; in particular no
beatmap-geometry reload signal. -/
theorem C8_enableModsOverride_idem (s : ReplayTale) (m : Mods) :
    ((s.enableModsOverride m).1).enableModsOverride m
      = ((s.enableModsOverride m).1, ([] : List Event)) :=
  enableModsOverride_noop _ m (enableModsOverride_flag s m)
    (enableModsOverride_mods s m)

/-- A tick while paused returns immediately with no state change and no
collaborator call. -/
theorem loop_paused (s : ReplayTale) (time currTime offset : Rat)
    (h : s.isPaused = true) : s.loop time currTime offset = (s, []) := by
  simp [ReplayTale.loop, h]

/-- An unpaused tick advances the timestamp by elapsed time scaled by the
playback rate, records the tick time, pushes the new timestamp to the
renderer and the game instance, and schedules the next frame last. -/
theorem loop_unpaused (s : ReplayTale) (time currTime offset : Rat)
    (h : s.isPaused = false) :
    (s.loop time currTime offset).1.timestamp =
        s.timestamp + (time - s.lastFrameTimestamp) * s._playbackRate ∧
    (s.loop time currTime offset).1.lastFrameTimestamp = time ∧
    (s.loop time currTime offset).1.renderer.timestamp =
        some (s.timestamp + (time - s.lastFrameTimestamp) * s._playbackRate) ∧
    (s.loop time currTime offset).1.gameInstance.time =
        some (s.timestamp + (time - s.lastFrameTimestamp) * s._playbackRate) ∧
    ((s.loop time currTime offset).2).getLast? =
        some Event.scheduleNextFrame := by
  simp only [ReplayTale.loop, h, Bool.false_eq_true, if_false,
    ReplayTale.playbackRate]
  repeat' split
  all_goals simp

/-- C9: a tick while paused changes nothing; otherwise it advances the
timestamp by elapsed wall time scaled by the playback rate, records the tick
time, pushes the new timestamp to the renderer and the game instance, and
the frame-scheduling call is the last emitted action. -/
theorem C9_loop_tick (s : ReplayTale) (time currTime offset : Rat) :
    (s.isPaused = true → s.loop time currTime offset = (s, [])) ∧
    (s.isPaused = false →
      (s.loop time currTime offset).1.timestamp =
          s.timestamp + (time - s.lastFrameTimestamp) * s._playbackRate ∧
      (s.loop time currTime offset).1.lastFrameTimestamp = time ∧
      (s.loop time currTime offset).1.renderer.timestamp =
          some (s.timestamp + (time - s.lastFrameTimestamp) * s._playbackRate) ∧
      (s.loop time currTime offset).1.gameInstance.time =
          some (s.timestamp + (time - s.lastFrameTimestamp) * s._playbackRate) ∧
      ((s.loop time currTime offset).2).getLast? =
          some Event.scheduleNextFrame) :=
  ⟨fun h => loop_paused s time currTime offset h,
   fun h => loop_unpaused s time currTime offset h⟩

/-- The state reached right after unpausing a fresh orchestrator. -/
def c9state : ReplayTale :=
  { ReplayTale.new ⟨true, 50, true⟩ with isPaused := false }

/-- C9 witness: the tick contract evaluated on a paused fresh orchestrator
and on an unpaused one at wall time 10. -/
theorem C9_loop_tick_witness :
    (ReplayTale.new ⟨true, 50, true⟩).loop 5 0 0
        = (ReplayTale.new ⟨true, 50, true⟩, []) ∧
    (c9state.loop 10 0 0).1.timestamp = 0 + (10 - 0) * 1 ∧
    ((c9state.loop 10 0 0).2).getLast? = some Event.scheduleNextFrame := by
  refine ⟨(C9_loop_tick _ 5 0 0).1 rfl, ?_, ?_⟩
  · exact ((C9_loop_tick c9state 10 0 0).2 rfl).1
  · exact ((C9_loop_tick c9state 10 0 0).2 rfl).2.2.2.2

/-- C10: `seek(t)` sets the timestamp and the renderer's timestamp to `t`
and re-seeks audio to `t / 1000` seconds, but never touches the game
instance's time, which is only assigned during an unpaused tick. -/
theorem C10_seek_game_time (s : ReplayTale) (t time currTime offset : Rat) :
    (s.seek t).1.gameInstance.time = s.gameInstance.time ∧
    (s.seek t).1.timestamp = t ∧
    (s.seek t).1.renderer.timestamp = some t ∧
    (s.seek t).2 = [Event.audioSeek (t / 1000)] ∧
    (s.isPaused = true →
      (s.loop time currTime offset).1.gameInstance.time
        = s.gameInstance.time) := by
  refine ⟨rfl, rfl, rfl, rfl, fun h => ?_⟩
  rw [loop_paused s time currTime offset h]

/-- C10 witness: the seek contract evaluated on a fresh (paused)
orchestrator at target timestamp 5000 with a tick at wall time 10. -/
theorem C10_seek_game_time_witness :
    ((ReplayTale.new ⟨true, 50, true⟩).seek 5000).1.gameInstance.time
        = (ReplayTale.new ⟨true, 50, true⟩).gameInstance.time ∧
    ((ReplayTale.new ⟨true, 50, true⟩).loop 10 0 0).1.gameInstance.time
        = (ReplayTale.new ⟨true, 50, true⟩).gameInstance.time :=
  ⟨(C10_seek_game_time (ReplayTale.new ⟨true, 50, true⟩) 5000 10 0 0).1,
   (C10_seek_game_time (ReplayTale.new ⟨true, 50, true⟩) 5000 10 0 0).2.2.2.2
     rfl⟩

/-- `loadReplay` captures the incoming replay's numeric identity (before any
override is applied to it) and leaves a replay loaded. -/
theorem loadReplay_capture (s : ReplayTale) (rep : Replay) :
    ((s.loadReplay rep).1)._replayModsNumeric = optToJS rep.mods.numeric ∧
      ((s.loadReplay rep).1).replay.isSome = true := by
  obtain ⟨bm, rp, ov, rmn, mods, ip, ts, pr, cnt, lt, lft, r, g, st⟩ := s
  simp only [ReplayTale.loadReplay]
  cases mods <;> cases bm <;> simp <;> split <;> simp

/-- The state after loading replay `rep`, then enabling each override of
`ovs` in turn, then disabling the override. -/
def ReplayTale.roundtrip (s : ReplayTale) (rep : Replay) (ovs : List Mods) :
    ReplayTale :=
  ((((s.loadReplay rep).1).applyOverrides ovs).disableModsOverride).1

/-- C1: after `loadReplay` captured the replay's original identity, any
sequence of `enableModsOverride` calls followed by one `disableModsOverride`
leaves the replay's mods identity equal to the original, and sets the
beatmap's mods identity to it as well when a beatmap is loaded. -/
theorem C1_override_roundtrip (s : ReplayTale) (rep : Replay)
    (ovs : List Mods) :
    ((s.roundtrip rep ovs).replay.map fun r => r.mods.numeric)
        = some rep.mods.numeric ∧
    ∀ b, (s.roundtrip rep ovs).beatmap = some b →
      b.getMods.numeric = rep.mods.numeric := by
  have h1 := loadReplay_capture s rep
  have h2 := applyOverrides_pres ovs (s.loadReplay rep).1
  exact disableModsOverride_restores _ rep.mods.numeric (h2.1.trans h1.1)
    (h2.2.trans h1.2)

/-- The state reached by loading a beatmap of mods identity 0 into a fresh
orchestrator. -/
def c1base : ReplayTale :=
  ((ReplayTale.new ⟨true, 50, true⟩).loadBeatmap ⟨⟨some 0⟩⟩).1

/-- C1 witness: beatmap of identity 0 loaded, replay of identity 8 loaded,
override of identity 16 enabled, then the override disabled: both identities
are 8 again. -/
theorem C1_override_roundtrip_witness :
    ((c1base.roundtrip ⟨⟨some 8⟩⟩ [⟨some 16⟩]).replay.map
        fun r => r.mods.numeric) = some (some 8) ∧
    (⟨⟨some 8⟩⟩ : Beatmap).getMods.numeric = some 8 := by
  refine ⟨(C1_override_roundtrip c1base ⟨⟨some 8⟩⟩ [⟨some 16⟩]).1, ?_⟩
  exact (C1_override_roundtrip c1base ⟨⟨some 8⟩⟩ [⟨some 16⟩]).2
    ⟨⟨some 8⟩⟩ (by decide)

/-- `loadBeatmap` leaves the override and the loaded replay untouched and
ends with a beatmap loaded. -/
theorem loadBeatmap_pres (s : ReplayTale) (B : Beatmap) :
    ((s.loadBeatmap B).1).mods = s.mods ∧
      ((s.loadBeatmap B).1).replay = s.replay ∧
      ∃ b0, ((s.loadBeatmap B).1).beatmap = some b0 := by
  obtain ⟨bm, rp, ov, rmn, mods, ip, ts, pr, cnt, lt, lft, r, g, st⟩ := s
  simp only [ReplayTale.loadBeatmap]
  cases mods <;> cases rp <;> simp

/-- With no override stored, `loadReplay` stores the replay unmutated and
keeps the override empty. -/
theorem loadReplay_noOverride (s : ReplayTale) (R : Replay)
    (hm : s.mods = none) :
    ((s.loadReplay R).1).mods = none ∧ ((s.loadReplay R).1).replay = some R := by
  obtain ⟨bm, rp, ov, rmn, mods, ip, ts, pr, cnt, lt, lft, r, g, st⟩ := s
  simp only at hm
  subst hm
  simp only [ReplayTale.loadReplay]
  cases bm
  · simp
  · simp
    split <;> simp

/-- With no override stored and a beatmap loaded, `loadReplay` ends with the
beatmap's mods identity equal to the incoming replay's identity (it is
forced when they disagree, and already equal otherwise). -/
theorem loadReplay_beatmap_sync (s : ReplayTale) (R : Replay)
    (hm : s.mods = none) :
    ∀ b, s.beatmap = some b →
      ((s.loadReplay R).1.beatmap.map fun x => x.mods.numeric)
        = some R.mods.numeric := by
  obtain ⟨bm, rp, ov, rmn, mods, ip, ts, pr, cnt, lt, lft, r, g, st⟩ := s
  simp only at hm
  subst hm
  intro b hb
  simp only at hb
  subst hb
  simp only [ReplayTale.loadReplay]
  split <;> simp_all [Beatmap.getMods, Beatmap.setMods]

/-- With no override stored and a replay loaded, `loadBeatmap` ends with the
beatmap's mods identity equal to the loaded replay's identity. -/
theorem loadBeatmap_replay_wins (s : ReplayTale) (B : Beatmap)
    (hm : s.mods = none) :
    ∀ r0, s.replay = some r0 →
      ((s.loadBeatmap B).1.beatmap.map fun x => x.mods.numeric)
        = some r0.mods.numeric := by
  obtain ⟨bm, rp, ov, rmn, mods, ip, ts, pr, cnt, lt, lft, r, g, st⟩ := s
  simp only at hm
  subst hm
  intro r0 hr0
  simp only at hr0
  subst hr0
  simp only [ReplayTale.loadBeatmap]
  split <;> simp_all [Beatmap.getMods, Beatmap.setMods]

/-- C4: with no override stored, loading beatmap `B` and replay `R` of
differing mods identities in either order ends with both the beatmap's and
the replay's mods identity equal to `R`'s original identity. -/
theorem C4_load_order (s : ReplayTale) (B : Beatmap) (R : Replay)
    (hm : s.mods = none) (hne : B.mods.numeric ≠ R.mods.numeric) :
    (((s.loadBeatmap B).1.loadReplay R).1.beatmap.map
        fun b => b.mods.numeric) = some R.mods.numeric ∧
    (((s.loadBeatmap B).1.loadReplay R).1.replay.map
        fun r => r.mods.numeric) = some R.mods.numeric ∧
    (((s.loadReplay R).1.loadBeatmap B).1.beatmap.map
        fun b => b.mods.numeric) = some R.mods.numeric ∧
    (((s.loadReplay R).1.loadBeatmap B).1.replay.map
        fun r => r.mods.numeric) = some R.mods.numeric := by
  have p1 := loadBeatmap_pres s B
  obtain ⟨b0, hb0⟩ := p1.2.2
  have q1 : ((s.loadBeatmap B).1).mods = none := p1.1.trans hm
  have q2 := loadReplay_noOverride s R hm
  refine ⟨loadReplay_beatmap_sync _ R q1 b0 hb0, ?_, ?_, ?_⟩
  · rw [(loadReplay_noOverride _ R q1).2]
    rfl
  · exact loadBeatmap_replay_wins _ B q2.1 R q2.2
  · rw [(loadBeatmap_pres (s.loadReplay R).1 B).2.1, q2.2]
    rfl

/-- C4 witness: fresh orchestrator, beatmap identity 0, replay identity 8:
after loading in either order, both identities are 8. -/
theorem C4_load_order_witness :
    (ReplayTale.new ⟨true, 50, true⟩).mods = none ∧
    (⟨⟨some 0⟩⟩ : Beatmap).mods.numeric ≠ (⟨⟨some 8⟩⟩ : Replay).mods.numeric ∧
    ((((ReplayTale.new ⟨true, 50, true⟩).loadBeatmap ⟨⟨some 0⟩⟩).1.loadReplay
          ⟨⟨some 8⟩⟩).1.beatmap.map fun b => b.mods.numeric)
      = some (some 8) ∧
    ((((ReplayTale.new ⟨true, 50, true⟩).loadReplay ⟨⟨some 8⟩⟩).1.loadBeatmap
          ⟨⟨some 0⟩⟩).1.beatmap.map fun b => b.mods.numeric)
      = some (some 8) := by
  refine ⟨rfl, by decide, ?_, ?_⟩
  · exact (C4_load_order (ReplayTale.new ⟨true, 50, true⟩) ⟨⟨some 0⟩⟩
      ⟨⟨some 8⟩⟩ rfl (by decide)).1
  · exact (C4_load_order (ReplayTale.new ⟨true, 50, true⟩) ⟨⟨some 0⟩⟩
      ⟨⟨some 8⟩⟩ rfl (by decide)).2.2.1

/-- C5 counterexample: on a fresh orchestrator with no beatmap loaded,
`seek(5000)` does push 5000 to the renderer's timestamp (which had never
been pushed) and does issue an audio seek targeting the beatmap track,
contradicting the claim that these are no-ops without a beatmap. -/
theorem C5_counterexample :
    (ReplayTale.new ⟨true, 50, true⟩).beatmap = none ∧
    (ReplayTale.new ⟨true, 50, true⟩).renderer.timestamp = none ∧
    ((ReplayTale.new ⟨true, 50, true⟩).seek 5000).1.renderer.timestamp
      = some 5000 ∧
    ((ReplayTale.new ⟨true, 50, true⟩).seek 5000).2 = [Event.audioSeek 5] := by
  refine ⟨rfl, rfl, rfl, ?_⟩
  simp only [ReplayTale.seek]
  norm_num

/-- C5 amended: with no beatmap loaded, a seek or an unpaused tick still
updates the timestamp, and also pushes it to the renderer (and, for a tick,
to the game instance) and issues the audio activity for the beatmap track:
none of these operations checks whether a beatmap is loaded. -/
theorem C5_no_beatmap_still_pushes (s : ReplayTale)
    (t time currTime offset : Rat) (hb : s.beatmap = none) :
    ((s.seek t).1.timestamp = t ∧
     (s.seek t).1.renderer.timestamp = some t ∧
     (s.seek t).2 = [Event.audioSeek (t / 1000)]) ∧
    (s.isPaused = false →
      (s.loop time currTime offset).1.timestamp =
          s.timestamp + (time - s.lastFrameTimestamp) * s._playbackRate ∧
      (s.loop time currTime offset).1.renderer.timestamp =
          some (s.timestamp + (time - s.lastFrameTimestamp) * s._playbackRate) ∧
      (s.loop time currTime offset).1.gameInstance.time =
          some (s.timestamp + (time - s.lastFrameTimestamp) * s._playbackRate)) := by
  refine ⟨⟨rfl, rfl, rfl⟩, fun h => ?_⟩
  have hu := loop_unpaused s time currTime offset h
  exact ⟨hu.1, hu.2.2.1, hu.2.2.2.1⟩

/-- C5 witness: the amended behavior evaluated on an unpaused fresh
orchestrator (no beatmap loaded). -/
theorem C5_no_beatmap_still_pushes_witness :
    c9state.beatmap = none ∧
    (c9state.seek 5000).1.renderer.timestamp = some 5000 ∧
    (c9state.loop 10 0 0).1.gameInstance.time = some (0 + (10 - 0) * 1) := by
  refine ⟨rfl, ?_, ?_⟩
  · exact (C5_no_beatmap_still_pushes c9state 5000 10 0 0 rfl).1.2.1
  · exact ((C5_no_beatmap_still_pushes c9state 5000 10 0 0 rfl).2 rfl).2.2

/-- A playing orchestrator, mid-run: issue-detection on, counter at 5, last
recorded correction time 0, logical timestamp 2000 with the previous frame
at wall time 100. -/
def c6state : ReplayTale :=
  { ReplayTale.new ⟨true, 50, true⟩ with
      isPaused := false, timestamp := 2000, lastFrameTimestamp := 100,
      _autoSyncCount := 5 }

/-- C6 counterexample: a tick at wall time 110 performs a drift correction
with issue-detection enabled and more than 1000ms elapsed since the last
counted correction, yet the counter ends at 0, not 1: the source increments
first and resets to zero afterwards. -/
theorem C6_counterexample :
    c6state.settings.audioAutoSyncDetectIssue = true ∧
    c6state.settings.audioAutoSyncEnabled = true ∧
    (c6state.loop 110 0 0).2
        = [Event.audioSeek (2010 / 1000), Event.scheduleNextFrame] ∧
    (2010 : Rat) - c6state._autoSyncLastTime > 1000 ∧
    (c6state.loop 110 0 0).1._autoSyncLastTime = 110 ∧
    (c6state.loop 110 0 0).1._autoSyncCount = 0 ∧
    ¬((c6state.loop 110 0 0).1._autoSyncCount = 1) := by
  simp only [c6state, ReplayTale.new, ReplayTale.loop, ReplayTale.playbackRate]
  norm_num

/-- C6 amended: when a drift correction occurs with issue-detection enabled
and the new logical timestamp exceeds the recorded last-correction time by
more than 1000ms, the counter is incremented and then reset, so it ends at
exactly 0 (not 1), and the tick's wall-clock time is recorded as the
last-correction time. -/
theorem C6_gap_counter_reset (s : ReplayTale) (time currTime offset : Rat)
    (hp : s.isPaused = false)
    (he : s.settings.audioAutoSyncEnabled = true)
    (hd : s.settings.audioAutoSyncDetectIssue = true)
    (hth : |currTime - offset -
        (s.timestamp + (time - s.lastFrameTimestamp) * s._playbackRate)|
        > s.settings.audioAutoSyncThresholdMS)
    (hgap : s.timestamp + (time - s.lastFrameTimestamp) * s._playbackRate
        - s._autoSyncLastTime > 1000) :
    (s.loop time currTime offset).1._autoSyncCount = 0 ∧
    (s.loop time currTime offset).1._autoSyncLastTime = time ∧
    Event.audioSeek
        ((s.timestamp + (time - s.lastFrameTimestamp) * s._playbackRate)
          / 1000)
      ∈ (s.loop time currTime offset).2 := by
  obtain ⟨bm, rp, ov, rmn, mods, ip, ts, pr, cnt, lt, lft, r, g,
    ⟨en, th, di⟩⟩ := s
  simp only at hp he hd hth hgap
  subst hp
  subst he
  subst hd
  simp only [ReplayTale.loop, ReplayTale.playbackRate]
  split_ifs with h1 h2 h3 h4 h5 <;> simp_all

/-- C6 witness: the amended counter behavior evaluated on `c6state` with a
tick at wall time 110 and a stalled audio reading. -/
theorem C6_gap_counter_reset_witness :
    c6state.isPaused = false ∧
    c6state.settings.audioAutoSyncEnabled = true ∧
    c6state.settings.audioAutoSyncDetectIssue = true ∧
    (|(0 : Rat) - 0 - (2000 + (110 - 100) * 1)| > 50) ∧
    ((2000 : Rat) + (110 - 100) * 1 - 0 > 1000) ∧
    (c6state.loop 110 0 0).1._autoSyncCount = 0 ∧
    (c6state.loop 110 0 0).1._autoSyncLastTime = 110 := by
  refine ⟨rfl, rfl, rfl, by norm_num, by norm_num, ?_, ?_⟩
  · exact (C6_gap_counter_reset c6state 110 0 0 rfl rfl rfl
      (by norm_num [c6state, ReplayTale.new])
      (by norm_num [c6state, ReplayTale.new])).1
  · exact (C6_gap_counter_reset c6state 110 0 0 rfl rfl rfl
      (by norm_num [c6state, ReplayTale.new])
      (by norm_num [c6state, ReplayTale.new])).2.1

/-- A reachable run for C7: seek to replay position 100000ms, then start
playback at wall-clock 0 with the audio stuck at position 0. -/
def c7start : ReplayTale × List Event :=
  (((ReplayTale.new ⟨true, 50, true⟩).seek 100000).1).play 0 0 0

/-- Eleven animation frames at wall-clock times 10..110ms — all inside one
1-second window — each with the audio still reading 0. -/
def c7ticks : List (Rat × Rat × Rat) :=
  [(10, 0, 0), (20, 0, 0), (30, 0, 0), (40, 0, 0), (50, 0, 0), (60, 0, 0),
   (70, 0, 0), (80, 0, 0), (90, 0, 0), (100, 0, 0), (110, 0, 0)]

/-- The run of the eleven frames after `c7start`. -/
def c7run : ReplayTale × List Event := (c7start.1).runLoop c7ticks

/-- Recognizes an audio re-seek call. -/
def isDriftSeek : Event → Bool := fun e =>
  match e with
  | Event.audioSeek _ => true
  | _ => false

/-- C7: eleven drift corrections occur within a 100ms wall-clock window,
yet auto-sync is never disabled and no warning is emitted: the window check
compares the logical timestamp (100000ms and growing) against the recorded
wall-clock frame time (0..110ms), so the counter is reset at every
correction and never exceeds 10. -/
theorem C7_window_never_disables :
    c7run.2.countP isDriftSeek = 11 ∧
    c7run.1.settings.audioAutoSyncEnabled = true ∧
    Event.warnAutoSyncIssue ∉ c7start.2 ++ c7run.2 ∧
    Event.settingsSetAutoSyncEnabled false ∉ c7start.2 ++ c7run.2 ∧
    c7run.1._autoSyncCount = 0 := by
  norm_num [c7run, c7start, c7ticks, ReplayTale.new, ReplayTale.seek,
    ReplayTale.play, ReplayTale.loop, ReplayTale.runLoop,
    ReplayTale.playbackRate, List.countP]
  simp [List.countP.go, isDriftSeek]

end Obviewer
